import Mathlib

/-!
# Requirement-Quality Gate: verification of the workflow core

A shallow embedding of the requirement-quality-gate pipeline
(`src/reqgate`): the deterministic gate decision, the scoring-stage
fallback penalty, the workflow graph routing, the retry wrapper around
the LLM gateway with its multi-model sweep, the input guardrail, and the
structural validator.  External collaborators (the network call itself,
wall-clock timing, YAML loading, the PII regular-expression engine) are
modelled as parameters; everything else is translated directly from the
Python source.  Definitions come first, theorems afterwards.
-/

namespace ReqGate

/-! ## String utilities

Python's `in` operator on strings is substring containment; we model it
with an executable substring search over character lists. -/

/-- `hasPre pat s`: `pat` is a prefix of `s` (character lists). -/
def hasPre : List Char → List Char → Bool
  | [], _ => true
  | _ :: _, [] => false
  | p :: ps, c :: cs => p == c && hasPre ps cs

/-- `subList pat s`: `pat` occurs as a contiguous sublist of `s`. -/
def subList (pat : List Char) : List Char → Bool
  | [] => hasPre pat []
  | c :: cs => hasPre pat (c :: cs) || subList pat cs

/-- Python's `pat in s` for strings: substring containment. -/
def strContains (s pat : String) : Bool := subList pat.data s.data

/-- Python's `str.strip()` on character lists (also the semantics of
trimming used by the source's length checks). -/
def pyStripChars (l : List Char) : List Char :=
  (((l.dropWhile Char.isWhitespace).reverse).dropWhile Char.isWhitespace).reverse

/-- Python's `str.lower()`. -/
def strLower (s : String) : String := String.mk (s.data.map Char.toLower)

/-- Rendering of a Python list of strings inside an f-string
(`f"{['a', 'b']}"`), used verbatim in guardrail messages. -/
def pyStrListRepr (xs : List String) : String :=
  "[" ++ String.intercalate ", " (xs.map (fun s => "\x27" ++ s ++ "\x27")) ++ "]"

/-! ## Data model (`schemas/inputs.py`, `schemas/outputs.py`, `schemas/internal.py`) -/

/-- `source_type` literal of `RequirementPacket`. -/
inductive SourceType
  | jiraTicket
  | prdDoc
  | meetingTranscript
deriving DecidableEq, Repr

/-- `priority` literal of `RequirementPacket`. -/
inductive Priority
  | p0
  | p1
  | p2
deriving DecidableEq, Repr

/-- `ticket_type` literal of `RequirementPacket`. -/
inductive TicketType
  | feature
  | bug
deriving DecidableEq, Repr

/-- `RequirementPacket` (`schemas/inputs.py`). -/
structure RequirementPacket where
  raw_text : String
  source_type : SourceType
  project_key : String
  priority : Priority
  ticket_type : TicketType
  attachments : List String
deriving DecidableEq, Repr

/-- `severity` literal of `ReviewIssue`. -/
inductive Severity
  | blocker
  | warning
deriving DecidableEq, Repr

/-- `category` literal of `ReviewIssue`. -/
inductive IssueCategory
  | missingAC
  | ambiguity
  | logicGap
  | security
  | missingField
deriving DecidableEq, Repr

/-- `ReviewIssue` (`schemas/outputs.py`). -/
structure ReviewIssue where
  severity : Severity
  category : IssueCategory
  description : String
  suggestion : String
deriving DecidableEq, Repr

/-- `TicketScoreReport` (`schemas/outputs.py`).  `total_score` is an
integer constrained to `[0, 100]` by the schema; we carry it as `Int`. -/
structure TicketScoreReport where
  total_score : Int
  ready_for_review : Bool
  dimension_scores : List (String × Int)
  blocking_issues : List ReviewIssue
  non_blocking_issues : List ReviewIssue
  summary_markdown : String
deriving DecidableEq, Repr

/-- `PRD_Draft` (`schemas/internal.py`), as plain data; the pydantic
validators are modelled separately as predicates on this data. -/
structure PRD_Draft where
  title : String
  user_story : String
  acceptance_criteria : List String
  edge_cases : List String
  resources : List String
  missing_info : List String
  clarification_questions : List String
deriving DecidableEq, Repr

/-- `AgentState` (`schemas/internal.py`).  `execution_times` holds
wall-clock floats and is not modelled. -/
structure AgentState where
  packet : RequirementPacket
  structured_prd : Option PRD_Draft
  score_report : Option TicketScoreReport
  gate_decision : Option Bool
  retry_count : Nat
  error_logs : List String
  current_stage : String
  fallback_activated : Bool
  structure_check_passed : Option Bool
  structure_errors : List String
deriving DecidableEq, Repr

/-- `create_initial_state` (`workflow/graph.py`). -/
def createInitialState (packet : RequirementPacket) : AgentState :=
  { packet := packet
    structured_prd := none
    score_report := none
    gate_decision := none
    retry_count := 0
    error_logs := []
    current_stage := "init"
    fallback_activated := false
    structure_check_passed := none
    structure_errors := [] }

/-! ## Schema validator for `PRD_Draft.title` (`schemas/internal.py`) -/

/-- `v.strip().split()[0].lower() if v.strip() else ""`: the first
whitespace-delimited token of the trimmed string, lower-cased.  Used
identically by the pydantic validator and the structural validator. -/
def firstTokenLower (title : String) : String :=
  let t := pyStripChars title.data
  if t.isEmpty then ""
  else String.mk ((t.takeWhile (fun c => !c.isWhitespace)).map Char.toLower)

/-- `action_verbs` tuple inside `PRD_Draft.title_must_start_with_verb`. -/
def pydanticActionVerbs : List String :=
  ["implement", "add", "create", "build", "develop", "design", "fix",
   "update", "remove", "delete", "refactor", "optimize", "improve",
   "enable", "disable", "configure", "setup", "integrate", "migrate",
   "support", "allow", "prevent", "validate", "verify", "test", "deploy",
   "release", "launch", "introduce", "extend", "enhance"]

/-- `PRD_Draft.title_must_start_with_verb` (`schemas/internal.py`):
`first_word.startswith(action_verbs)` — true when some verb of the tuple
is a prefix of the first token. -/
def titleMustStartWithVerb (title : String) : Bool :=
  pydanticActionVerbs.any (fun v => hasPre v.data (firstTokenLower title).data)

/-! ## Structural validator (`workflow/nodes/structure_check.py`) -/

def MIN_AC_COUNT : Nat := 2
def MIN_USER_STORY_LENGTH : Nat := 20
def MIN_TITLE_LENGTH : Nat := 10
def MAX_TITLE_LENGTH : Nat := 200

/-- `ACTION_VERBS` tuple (`workflow/nodes/structure_check.py`). -/
def ACTION_VERBS : List String :=
  ["implement", "add", "create", "build", "develop", "design", "fix",
   "update", "remove", "delete", "refactor", "optimize", "improve",
   "enable", "disable", "configure", "setup", "integrate", "migrate",
   "support", "allow", "prevent", "validate", "verify", "test", "deploy",
   "release", "launch", "introduce", "extend", "enhance"]

def acCountErrorMsg (found : Nat) : String :=
  "Insufficient acceptance criteria: found " ++
    (toString found ++ (", minimum required is " ++ toString MIN_AC_COUNT))

def userStoryErrorMsg (len : Nat) : String :=
  "User story too short: " ++
    (toString len ++ (" characters, minimum required is " ++ toString MIN_USER_STORY_LENGTH))

def titleTooShortErrorMsg (len : Nat) : String :=
  "Title too short: " ++
    (toString len ++ (" characters, minimum required is " ++ toString MIN_TITLE_LENGTH))

def titleTooLongErrorMsg (len : Nat) : String :=
  "Title too long: " ++
    (toString len ++ (" characters, maximum allowed is " ++ toString MAX_TITLE_LENGTH))

def actionVerbErrorMsg (first_word : String) : String :=
  "Title should start with an action verb (e.g., Implement, Add, Create). Got: \x27" ++
    (first_word ++ "\x27")

/-- `hard_check_structure_node` (`workflow/nodes/structure_check.py`):
skips with a null tri-state when no draft exists, otherwise runs the
four independent checks and collects their error messages. -/
def hardCheckStructureNode (state : AgentState) : AgentState :=
  let state := { state with current_stage := "structure_check" }
  match state.structured_prd with
  | none =>
      { state with structure_check_passed := none, structure_errors := [] }
  | some prd =>
      let ac_count := prd.acceptance_criteria.length
      let acErrs := if ac_count < MIN_AC_COUNT then [acCountErrorMsg ac_count] else []
      let story_len := (pyStripChars prd.user_story.data).length
      let storyErrs := if story_len < MIN_USER_STORY_LENGTH then [userStoryErrorMsg story_len] else []
      let title_len := (pyStripChars prd.title.data).length
      let titleErrs :=
        if title_len < MIN_TITLE_LENGTH then [titleTooShortErrorMsg title_len]
        else if title_len > MAX_TITLE_LENGTH then [titleTooLongErrorMsg title_len]
        else []
      let first_word := firstTokenLower prd.title
      let verbErrs :=
        if ACTION_VERBS.any (fun v => hasPre v.data first_word.data) then []
        else [actionVerbErrorMsg first_word]
      let errors := acErrs ++ storyErrs ++ titleErrs ++ verbErrs
      { state with
        structure_check_passed := some errors.isEmpty
        structure_errors := errors }

/-! ## Structuring node and fallback routing (`workflow/graph.py`,
`workflow/nodes/structuring_agent.py`)

The structuring agent's LLM round-trip is a collaborator; its outcome
(a validated draft or an absorbed failure) is a parameter. -/

/-- `structuring_agent_node`: stores the draft on success; on failure
logs the error and leaves the draft null (never raises). -/
def structuringNode (result : Except String PRD_Draft) (state : AgentState) : AgentState :=
  match result with
  | .ok prd =>
      { state with structured_prd := some prd, current_stage := "structuring_complete" }
  | .error e =>
      { state with
        structured_prd := none
        current_stage := "structuring_failed"
        error_logs := state.error_logs ++ ["Structuring: " ++ e] }

/-- Branch labels returned by `should_fallback` (`workflow/graph.py`). -/
inductive Route
  | structure_check
  | fallback_scoring
deriving DecidableEq, Repr

/-- `should_fallback` (`workflow/graph.py`). -/
def shouldFallback (state : AgentState) : Route :=
  if state.structured_prd.isSome then .structure_check else .fallback_scoring

/-- `activate_fallback` (`workflow/graph.py`). -/
def activateFallback (state : AgentState) : AgentState :=
  { state with
    fallback_activated := true
    error_logs := state.error_logs ++ ["Fallback activated: scoring will use raw text"] }

/-! ## Scoring stage (`workflow/graph.py`) -/

/-- `format_prd_for_scoring` (`workflow/graph.py`). -/
def formatPrdForScoring (prd : PRD_Draft) : String :=
  let sections :=
    ["# " ++ prd.title, "", "## User Story", prd.user_story, "", "## Acceptance Criteria"]
  let acLines := prd.acceptance_criteria.enum.map (fun p => toString (p.1 + 1) ++ ". " ++ p.2)
  let edgeLines :=
    if prd.edge_cases.isEmpty then []
    else ["", "## Edge Cases"] ++ prd.edge_cases.map (fun c => "- " ++ c)
  let resourceLines :=
    if prd.resources.isEmpty then []
    else ["", "## Resources"] ++ prd.resources.map (fun r => "- " ++ r)
  let gapLines :=
    if prd.missing_info.isEmpty then []
    else ["", "## Identified Gaps"] ++ prd.missing_info.map (fun i => "- " ++ i)
  String.intercalate "\n" (sections ++ acLines ++ edgeLines ++ resourceLines ++ gapLines)

/-- `_prepare_scoring_input` (`workflow/graph.py`): with a draft, a new
packet is built whose `raw_text` is the rendered draft; the constructor
call passes only the five named fields, so `attachments` takes its
schema default (the empty list). -/
def prepareScoringInput (packet : RequirementPacket) (structured_prd : Option PRD_Draft) :
    RequirementPacket :=
  match structured_prd with
  | none => packet
  | some prd =>
      { raw_text := formatPrdForScoring prd
        source_type := packet.source_type
        project_key := packet.project_key
        priority := packet.priority
        ticket_type := packet.ticket_type
        attachments := [] }

/-- The scoring agent's LLM round-trip plus JSON validation is a
collaborator: a function from the prepared packet to a validated report
or a failure message. -/
def ScoringAgentFn := RequirementPacket → Except String TicketScoreReport

/-- `scoring_node` (`workflow/graph.py`): prepares the input, runs the
agent, applies the fallback penalty (`max(0, score - 5)`) exactly when
`fallback_activated` is set, and absorbs agent failures into the error
log. -/
def scoringNode (agent : ScoringAgentFn) (state : AgentState) : AgentState :=
  let state := { state with current_stage := "scoring" }
  match agent (prepareScoringInput state.packet state.structured_prd) with
  | .ok report =>
      let report :=
        if state.fallback_activated then
          { report with total_score := max 0 (report.total_score - 5) }
        else report
      { state with score_report := some report }
  | .error e =>
      { state with error_logs := state.error_logs ++ ["Scoring failed: " ++ e] }

/-! ## Gate decision (`gates/decision.py`, `workflow/graph.py`) -/

/-- `GateDecision = Literal["PASS", "REJECT"]`. -/
inductive GateDecision
  | PASS
  | REJECT
deriving DecidableEq, Repr

/-- Per-category pass thresholds read from the rubric configuration
(`gates/rules.py` loads them from YAML, an external collaborator; the
gate reads only `config["threshold"]`). -/
def RubricThresholds := TicketType → Int

/-- `HardGate.decide` (`gates/decision.py`): blocking issues force
REJECT, then the score is compared against the category threshold. -/
def hardGateDecide (thresholds : RubricThresholds)
    (report : TicketScoreReport) (ticket_type : TicketType) : GateDecision :=
  let threshold := thresholds ticket_type
  if report.blocking_issues.length > 0 then .REJECT
  else if report.total_score < threshold then .REJECT
  else .PASS

/-- `hard_gate_node` (`workflow/graph.py`): a missing score report is an
automatic reject; otherwise the decision is delegated to
`HardGate.decide`. -/
def hardGateNode (thresholds : RubricThresholds) (state : AgentState) : AgentState :=
  let state := { state with current_stage := "gate" }
  match state.score_report with
  | none =>
      { state with
        gate_decision := some false
        error_logs := state.error_logs ++ ["Gate decision: REJECT (no score report)"] }
  | some report =>
      let decision := hardGateDecide thresholds report state.packet.ticket_type
      { state with gate_decision := some (decision == .PASS) }

/-! ## Input guardrail (`workflow/nodes/input_guardrail.py`)

The PII regular-expression engine (`re.findall` over `PII_PATTERNS`) is
an external collaborator, modelled as an oracle from PII type and text
to the list of matched values.  Everything else — length checks,
injection phrase search, masking, message formats, mode handling, and
the rejection-reason classification — is translated from the source. -/

inductive GuardMode
  | strict
  | lenient
deriving DecidableEq, Repr

inductive InjectionAction
  | reject
  | sanitize
  | warn
deriving DecidableEq, Repr

/-- `PIIDetectionConfig`. -/
structure PIIDetectionConfig where
  enabled : Bool
  mode : GuardMode
  patterns : List (String × Bool)
deriving DecidableEq, Repr

/-- `PromptInjectionConfig`. -/
structure PromptInjectionConfig where
  enabled : Bool
  action : InjectionAction
  patterns : List String
deriving DecidableEq, Repr

/-- `GuardrailConfig`. -/
structure GuardrailConfig where
  min_length : Nat
  max_length : Nat
  pii_detection : PIIDetectionConfig
  prompt_injection : PromptInjectionConfig
  default_mode : GuardMode
deriving DecidableEq, Repr

/-- `GuardrailResult`. -/
structure GuardrailResult where
  passed : Bool
  warnings : List String
  errors : List String
  sanitized_text : Option String
  pii_detected : List String
  injection_detected : List String
deriving DecidableEq, Repr

/-- The keys of the `PII_PATTERNS` regex table. -/
def PII_PATTERN_KEYS : List String := ["email", "phone", "credit_card", "ssn"]

/-- Oracle standing for `re.findall(PII_PATTERNS[pii_type], text)`. -/
def PIIFind := String → String → List String

/-- `InputGuardrail._mask_pii`. -/
def maskPII (value : String) : String :=
  if value.length ≤ 4 then "****"
  else String.mk (value.data.take 2) ++ String.mk (List.replicate (value.length - 4) '*') ++
    String.mk (value.data.drop (value.length - 2))

def tooShortErrorMsg (n minL : Nat) : String :=
  "Input too short: " ++ (toString n ++ (" characters (minimum: " ++ (toString minL ++ ")")))

def tooLongErrorMsg (n maxL : Nat) : String :=
  "Input too long: " ++ (toString n ++ (" characters (maximum: " ++ (toString maxL ++ ")")))

/-- `InputGuardrail._validate_length`. -/
def validateLength (cfg : GuardrailConfig) (text : String) (r : GuardrailResult) :
    GuardrailResult :=
  let n := (pyStripChars text.data).length
  let r :=
    if n < cfg.min_length then
      { r with passed := false, errors := r.errors ++ [tooShortErrorMsg n cfg.min_length] }
    else r
  if n > cfg.max_length then
    { r with passed := false, errors := r.errors ++ [tooLongErrorMsg n cfg.max_length] }
  else r

/-- One iteration of the `_detect_pii` loop over the per-type enable map. -/
def detectPIIStep (piiCfg : PIIDetectionConfig) (find : PIIFind) (text : String)
    (mode : GuardMode) (r : GuardrailResult) (entry : String × Bool) : GuardrailResult :=
  if !entry.2 then r
  else if !PII_PATTERN_KEYS.contains entry.1 then r
  else
    let found := find entry.1 text
    if found.isEmpty then r
    else
      let masked := found.map maskPII
      let r :=
        { r with
          pii_detected := r.pii_detected ++ [entry.1 ++ ": " ++ toString found.length ++ " found"] }
      if mode == .strict || piiCfg.mode == .strict then
        { r with
          passed := false
          errors := r.errors ++ ["PII detected (" ++ entry.1 ++ "): " ++ pyStrListRepr masked] }
      else
        { r with
          warnings := r.warnings ++ ["PII detected (" ++ entry.1 ++ "): " ++ pyStrListRepr masked] }

/-- `InputGuardrail._detect_pii`. -/
def detectPII (piiCfg : PIIDetectionConfig) (find : PIIFind) (text : String)
    (mode : GuardMode) (r : GuardrailResult) : GuardrailResult :=
  piiCfg.patterns.foldl (detectPIIStep piiCfg find text mode) r

/-- Case-insensitive literal replacement over character lists, fuelled
by the input length (`re.sub(re.escape(p), rep, s, flags=IGNORECASE)`). -/
def replaceCIGo (patLower : List Char) (rep : List Char) : Nat → List Char → List Char
  | 0, s => s
  | _, [] => []
  | fuel + 1, c :: cs =>
      if !patLower.isEmpty && hasPre patLower ((c :: cs).map Char.toLower) then
        rep ++ replaceCIGo patLower rep fuel (List.drop patLower.length (c :: cs))
      else
        c :: replaceCIGo patLower rep fuel cs

def replaceCI (pat rep s : String) : String :=
  String.mk (replaceCIGo (pat.data.map Char.toLower) rep.data s.length s.data)

/-- `InputGuardrail._detect_injection`. -/
def detectInjection (injCfg : PromptInjectionConfig) (text : String) (r : GuardrailResult) :
    GuardrailResult :=
  let text_lower := strLower text
  let detected := injCfg.patterns.filter (fun p => strContains text_lower (strLower p))
  if detected.isEmpty then r
  else
    let r := { r with injection_detected := detected }
    match injCfg.action with
    | .reject =>
        { r with
          passed := false
          errors := r.errors ++ ["Prompt injection detected: " ++ pyStrListRepr detected] }
    | .warn =>
        { r with
          warnings := r.warnings ++ ["Potential prompt injection: " ++ pyStrListRepr detected] }
    | .sanitize =>
        let sanitized := detected.foldl (fun s p => replaceCI p "[REMOVED]" s) text
        { r with
          sanitized_text := some sanitized
          warnings := r.warnings ++ ["Sanitized prompt injection patterns: " ++ pyStrListRepr detected] }

/-- `InputGuardrail.validate`: length, then PII (when enabled), then
injection (when enabled), accumulating into one result. -/
def guardrailValidate (cfg : GuardrailConfig) (find : PIIFind) (text : String)
    (mode : Option GuardMode) : GuardrailResult :=
  let effective_mode := mode.getD cfg.default_mode
  let r : GuardrailResult :=
    { passed := true, warnings := [], errors := [], sanitized_text := some text
      pii_detected := [], injection_detected := [] }
  let r := validateLength cfg text r
  let r :=
    if cfg.pii_detection.enabled then detectPII cfg.pii_detection find text effective_mode r
    else r
  if cfg.prompt_injection.enabled then detectInjection cfg.prompt_injection text r else r

/-- `rejection_reason` literal of `GuardrailRejectionError`
(`workflow/errors.py`): the closed set of reasons. -/
inductive RejectionReason
  | too_short
  | too_long
  | pii_detected
  | prompt_injection
  | validation_failed
deriving DecidableEq, Repr

/-- `GuardrailRejectionError` payload (`workflow/errors.py`). -/
structure GuardrailRejection where
  message : String
  rejection_reason : RejectionReason
  details : String
deriving DecidableEq, Repr

/-- The reason classification in `input_guardrail_node`: length messages
are searched for first, then PII findings, then injection findings, else
the generic reason. -/
def classifyRejectionReason (r : GuardrailResult) : RejectionReason :=
  if r.errors.any (fun e => strContains e "too short") then .too_short
  else if r.errors.any (fun e => strContains e "too long") then .too_long
  else if !r.pii_detected.isEmpty then .pii_detected
  else if !r.injection_detected.isEmpty then .prompt_injection
  else .validation_failed

/-- `input_guardrail_node` (`workflow/nodes/input_guardrail.py`): on a
failed validation the run aborts with the typed rejection; otherwise the
state passes through. -/
def inputGuardrailNode (cfg : GuardrailConfig) (find : PIIFind) (state : AgentState) :
    Except GuardrailRejection AgentState :=
  let result := guardrailValidate cfg find state.packet.raw_text none
  if result.passed then
    .ok { state with current_stage := "guardrail_passed" }
  else
    let error_msg := String.intercalate "; " result.errors
    .error
      { message := "Input validation failed: " ++ error_msg
        rejection_reason := classifyRejectionReason result
        details := error_msg }

/-- Projection used to state guardrail outcomes without binders. -/
def rejectionReasonOf (e : Except GuardrailRejection AgentState) : Option RejectionReason :=
  match e with
  | .error rej => some rej.rejection_reason
  | .ok _ => none

/-! ## Workflow graph (`workflow/graph.py`)

`create_workflow` compiles a topology from the three feature toggles;
executing the compiled graph once is the composition below: guardrail
(when enabled), then structuring with its conditional edge (when
enabled), then scoring, then the gate. -/

/-- `WorkflowConfig` (`schemas/config.py`); the timeout fields are
wall-clock floats consumed only by the collaborators. -/
structure WorkflowConfig where
  enable_guardrail : Bool := true
  enable_structuring : Bool := true
  enable_fallback : Bool := true
  max_retries : Nat := 3
  guardrail_mode : GuardMode := .lenient
deriving DecidableEq, Repr

/-- One execution of the graph compiled by `create_workflow`, starting
from `create_initial_state`: nodes exist only for enabled features, the
conditional edge out of structuring routes on `should_fallback` only
when the fallback node exists, and scoring plus gate form the fixed
tail. -/
def runWorkflow (config : WorkflowConfig) (gcfg : GuardrailConfig) (find : PIIFind)
    (structuringResult : Except String PRD_Draft) (agent : ScoringAgentFn)
    (thresholds : RubricThresholds) (packet : RequirementPacket) :
    Except GuardrailRejection AgentState :=
  let st0 := createInitialState packet
  match (if config.enable_guardrail then inputGuardrailNode gcfg find st0 else .ok st0) with
  | .error e => .error e
  | .ok st1 =>
      let st2 :=
        if config.enable_structuring then
          let sts := structuringNode structuringResult st1
          if config.enable_fallback then
            match shouldFallback sts with
            | .structure_check => hardCheckStructureNode sts
            | .fallback_scoring => activateFallback sts
          else hardCheckStructureNode sts
        else st1
      .ok (hardGateNode thresholds (scoringNode agent st2))

/-- Projection used to state run outcomes without binders. -/
def runFallbackFlag (e : Except GuardrailRejection AgentState) : Option Bool :=
  match e with
  | .ok st => some st.fallback_activated
  | .error _ => none

/-- Projection used to state run outcomes without binders. -/
def runDraftIsNone (e : Except GuardrailRejection AgentState) : Option Bool :=
  match e with
  | .ok st => some st.structured_prd.isNone
  | .error _ => none

/-! ## LLM adapter: multi-model sweep and retry wrapper (`adapters/llm.py`)

The network call `_call_model` is the collaborator: a gateway function
from the global call index and model name to an outcome (the index lets
a model behave differently across successive calls).  `invoke` sweeps
the preference list `[model] + fallback_models`; `call_llm_with_retry`
wraps one `invoke` per attempt with the tenacity policy
`stop_after_attempt(max_retries + 1)`, retrying exactly the
timeout/rate-limit classifications.  Backoff waits are wall-clock and
not modelled; the call trace and attempt count are recorded as ghost
instrumentation. -/

/-- Outcome of one `_call_model` network call. -/
inductive CallOutcome
  | success (response : String)
  | timeout (msg : String)
  | apiError (msg : String)
deriving DecidableEq, Repr

/-- The external gateway: call index and model name to outcome. -/
def Gateway := Nat → String → CallOutcome

deriving instance DecidableEq for Except

/-- The exception `OpenRouterClient.invoke` raises: `TimeoutError` or
`RuntimeError`. -/
inductive InvokeError
  | timeoutErr (msg : String)
  | runtimeErr (msg : String)
deriving DecidableEq, Repr

/-- Result of one `invoke` sweep, with its ghost call trace and the next
global call index. -/
structure SweepResult where
  calls : List String
  nextIdx : Nat
  result : Except InvokeError String
deriving DecidableEq, Repr

/-- The loop body of `OpenRouterClient.invoke`: try each model once in
order, return on first success, remember the last error (a timeout is
re-labelled `"LLM request timeout: <model>"`), raise the last error
after the loop. -/
def invokeSweepGo (gw : Gateway) : List String → Nat → Option InvokeError → SweepResult
  | [], idx, last =>
      { calls := [], nextIdx := idx
        result := .error (last.getD (.runtimeErr "All LLM models failed")) }
  | model :: rest, idx, _last =>
      match gw idx model with
      | .success resp => { calls := [model], nextIdx := idx + 1, result := .ok resp }
      | .timeout _ =>
          let r := invokeSweepGo gw rest (idx + 1)
            (some (.timeoutErr ("LLM request timeout: " ++ model)))
          { r with calls := model :: r.calls }
      | .apiError e =>
          let r := invokeSweepGo gw rest (idx + 1) (some (.runtimeErr e))
          { r with calls := model :: r.calls }

/-- `OpenRouterClient.invoke` over the full preference list. -/
def invokeSweep (gw : Gateway) (models : List String) (idx : Nat) : SweepResult :=
  invokeSweepGo gw models idx none

/-- The typed errors surfaced by `call_llm_with_retry`
(`workflow/errors.py`): exhaustion errors carry the retry count;
non-retryable runtime errors propagate as they are. -/
inductive LLMError
  | llmTimeout (retry_count : Nat)
  | llmRateLimit (retry_count : Nat)
  | runtimeError (msg : String)
deriving DecidableEq, Repr

/-- `"rate" in error_msg and "limit" in error_msg` over the lower-cased
message. -/
def isRateLimitMsg (msg : String) : Bool :=
  strContains (strLower msg) "rate" && strContains (strLower msg) "limit"

/-- Result of `call_llm_with_retry`, with its ghost call trace and the
number of attempts (invocations of `invoke`) made. -/
structure RunResult where
  calls : List String
  attempts : Nat
  result : Except LLMError String
deriving DecidableEq, Repr

/-- `call_llm_with_retry`'s loop: each attempt is one full `invoke`
sweep; a timeout classifies as retryable, a runtime error with the
rate-limit keywords as retryable, anything else propagates immediately;
on exhaustion the last classification picks the typed error, carrying
the count of retryable failures seen (`retry_count`).  `fuel` is the
number of attempts still allowed (`max_retries + 1` initially). -/
def retryGo (gw : Gateway) (models : List String) : Nat → Nat → Nat → RunResult
  | 0, _, retry_count =>
      { calls := [], attempts := 0, result := .error (.llmTimeout retry_count) }
  | fuel + 1, idx, retry_count =>
      let sweep := invokeSweep gw models idx
      match sweep.result with
      | .ok resp => { calls := sweep.calls, attempts := 1, result := .ok resp }
      | .error (.timeoutErr _) =>
          match fuel with
          | 0 =>
              { calls := sweep.calls, attempts := 1
                result := .error (.llmTimeout (retry_count + 1)) }
          | f + 1 =>
              let r := retryGo gw models (f + 1) sweep.nextIdx (retry_count + 1)
              { calls := sweep.calls ++ r.calls, attempts := r.attempts + 1, result := r.result }
      | .error (.runtimeErr m) =>
          if isRateLimitMsg m then
            match fuel with
            | 0 =>
                { calls := sweep.calls, attempts := 1
                  result := .error (.llmRateLimit (retry_count + 1)) }
            | f + 1 =>
                let r := retryGo gw models (f + 1) sweep.nextIdx (retry_count + 1)
                { calls := sweep.calls ++ r.calls, attempts := r.attempts + 1, result := r.result }
          else { calls := sweep.calls, attempts := 1, result := .error (.runtimeError m) }

/-- `call_llm_with_retry` (`adapters/llm.py`): at most
`max_retries + 1` attempts, each attempt one full model sweep. -/
def callLLMWithRetry (gw : Gateway) (models : List String) (max_retries : Nat) : RunResult :=
  retryGo gw models (max_retries + 1) 0 0

/-- Modelled from the spec (claim C4 wording): the outer loop runs model
1 through its whole retry cycle, then model 2 through its whole retry
cycle, and so on in fixed preference order, returning on the first
success and raising the last encountered error when every model's cycle
is exhausted. -/
def modelOuterSpecGo (gw : Gateway) (max_retries : Nat) :
    List String → Nat → Option LLMError → RunResult
  | [], _, last =>
      { calls := [], attempts := 0
        result := .error (last.getD (.runtimeError "All LLM models failed")) }
  | model :: rest, idx, _last =>
      let r := retryGo gw [model] (max_retries + 1) idx 0
      match r.result with
      | .ok resp => { calls := r.calls, attempts := r.attempts, result := .ok resp }
      | .error e =>
          let r2 := modelOuterSpecGo gw max_retries rest (idx + r.calls.length) (some e)
          { calls := r.calls ++ r2.calls, attempts := r.attempts + r2.attempts
            result := r2.result }

/-- Modelled from the spec (claim C4 wording): see `modelOuterSpecGo`. -/
def modelOuterSpec (gw : Gateway) (models : List String) (max_retries : Nat) : RunResult :=
  modelOuterSpecGo gw max_retries models 0 none

/-- The retry layer as an independent combinator over an abstract
per-attempt call (the spec's inner retry utility), used to state the
amended layering claim: the composition has the retry layer outermost
over the model sweep. -/
def specRetryLoop (attempt : Nat → SweepResult) : Nat → Nat → Nat → RunResult
  | 0, _, retry_count =>
      { calls := [], attempts := 0, result := .error (.llmTimeout retry_count) }
  | fuel + 1, idx, retry_count =>
      let sweep := attempt idx
      match sweep.result with
      | .ok resp => { calls := sweep.calls, attempts := 1, result := .ok resp }
      | .error (.timeoutErr _) =>
          match fuel with
          | 0 =>
              { calls := sweep.calls, attempts := 1
                result := .error (.llmTimeout (retry_count + 1)) }
          | f + 1 =>
              let r := specRetryLoop attempt (f + 1) sweep.nextIdx (retry_count + 1)
              { calls := sweep.calls ++ r.calls, attempts := r.attempts + 1, result := r.result }
      | .error (.runtimeErr m) =>
          if isRateLimitMsg m then
            match fuel with
            | 0 =>
                { calls := sweep.calls, attempts := 1
                  result := .error (.llmRateLimit (retry_count + 1)) }
            | f + 1 =>
                let r := specRetryLoop attempt (f + 1) sweep.nextIdx (retry_count + 1)
                { calls := sweep.calls ++ r.calls, attempts := r.attempts + 1, result := r.result }
          else { calls := sweep.calls, attempts := 1, result := .error (.runtimeError m) }

/-! ## Concrete values used by witnesses and counterexamples -/

/-- A valid sample packet with one attachment. -/
def pktAttach : RequirementPacket :=
  { raw_text := "Implement user authentication with OAuth2 support for the main application"
    source_type := .jiraTicket
    project_key := "AUTH"
    priority := .p1
    ticket_type := .feature
    attachments := ["https://example.com/doc.pdf"] }

/-- A valid sample packet without attachments. -/
def pkt0 : RequirementPacket :=
  { raw_text := "Implement user authentication with OAuth2 support for the main application"
    source_type := .jiraTicket
    project_key := "AUTH"
    priority := .p1
    ticket_type := .feature
    attachments := [] }

/-- A schema-valid sample draft. -/
def prdOk : PRD_Draft :=
  { title := "Implement user authentication"
    user_story := "As a user, I want to log in, so that I can access my account"
    acceptance_criteria := ["User can log in with email", "User sees an error on bad password"]
    edge_cases := []
    resources := []
    missing_info := []
    clarification_questions := [] }

/-- A draft with one acceptance criterion and a non-action-verb title. -/
def prdBad : PRD_Draft :=
  { title := "Random title for testing purposes"
    user_story := "As a user, I want to log in, so that I can access my account"
    acceptance_criteria := ["User can log in with email"]
    edge_cases := []
    resources := []
    missing_info := []
    clarification_questions := [] }

/-- A sample report with score 70 and no blocking issues. -/
def report70 : TicketScoreReport :=
  { total_score := 70
    ready_for_review := true
    dimension_scores := [("completeness", 80), ("logic", 60)]
    blocking_issues := []
    non_blocking_issues := []
    summary_markdown := "ok" }

/-- Scoring agent that always succeeds with `report70`. -/
def agent70 : ScoringAgentFn := fun _ => .ok report70

/-- Scoring agent that always fails. -/
def agentFail : ScoringAgentFn := fun _ => .error "boom"

/-- Threshold table: 60 for every category. -/
def thresholds60 : RubricThresholds := fun _ => 60

/-- PII oracle that never matches. -/
def noPIIFind : PIIFind := fun _ _ => []

/-- The default guardrail configuration (config-file defaults). -/
def defaultGuardrailConfig : GuardrailConfig :=
  { min_length := 50
    max_length := 10000
    pii_detection :=
      { enabled := true, mode := .lenient
        patterns := [("email", true), ("phone", true), ("credit_card", false), ("ssn", false)] }
    prompt_injection :=
      { enabled := true, action := .reject
        patterns :=
          ["ignore previous instructions", "ignore all previous", "disregard all previous",
           "forget everything", "you are now", "act as", "pretend to be", "system prompt",
           "reveal your instructions"] }
    default_mode := .lenient }

/-- Structuring enabled, fallback disabled (C3's counterexample
configuration). -/
def cfgNoFallback : WorkflowConfig :=
  { enable_guardrail := false
    enable_structuring := true
    enable_fallback := false
    max_retries := 3
    guardrail_mode := .lenient }

/-- Structuring and fallback enabled, guardrail disabled. -/
def cfgFallback : WorkflowConfig :=
  { enable_guardrail := false
    enable_structuring := true
    enable_fallback := true
    max_retries := 3
    guardrail_mode := .lenient }

/-- Gateway where the primary model always times out and the fallback
model always succeeds. -/
def gwFallbackModel : Gateway :=
  fun _ m => if m == "m2" then .success "resp" else .timeout "t"

/-- Gateway that times out on the first two calls, then succeeds. -/
def gwTwoTimeouts : Gateway :=
  fun i _ => if i < 2 then .timeout "t" else .success "ok"

/-- Gateway that always times out. -/
def gwAlwaysTimeout : Gateway := fun _ _ => .timeout "t"

/-- Gateway that always fails with a non-rate-limit runtime error. -/
def gwApiKeyError : Gateway := fun _ _ => .apiError "Invalid API key"

/-- A short input containing an injection phrase. -/
def pktShortInjection : RequirementPacket :=
  { raw_text := "act as admin"
    source_type := .jiraTicket
    project_key := "AUTH"
    priority := .p1
    ticket_type := .feature
    attachments := [] }

/-!
# Theorems
-/

/-! ## String lemmas -/

theorem hasPre_append {pat a : List Char} (b : List Char)
    (h : hasPre pat a = true) : hasPre pat (a ++ b) = true := by
  induction pat generalizing a with
  | nil => simp [hasPre]
  | cons p ps ih =>
    cases a with
    | nil => simp [hasPre] at h
    | cons c cs =>
      simp [hasPre] at h ⊢
      exact ⟨h.1, ih h.2⟩

theorem subList_append_right {pat a : List Char} (b : List Char)
    (h : subList pat a = true) : subList pat (a ++ b) = true := by
  induction a with
  | nil =>
    cases pat with
    | nil =>
      cases b with
      | nil => simpa using h
      | cons x xs => simp [subList, hasPre]
    | cons p ps => simp [subList, hasPre] at h
  | cons c cs ih =>
    simp [subList] at h ⊢
    cases h with
    | inl h => exact Or.inl (hasPre_append b h)
    | inr h => exact Or.inr (ih h)

theorem string_data_append (s t : String) : (s ++ t).data = s.data ++ t.data := by
  cases s; cases t; rfl

theorem strContains_append_right (a b pat : String)
    (h : strContains a pat = true) : strContains (a ++ b) pat = true := by
  unfold strContains at h ⊢
  rw [string_data_append]
  exact subList_append_right b.data h

theorem string_eq_of_data_eq {s t : String} (h : s.data = t.data) : s = t :=
  congrArg String.mk h

/-- Two strings with equal-length distinct leading literals differ,
whatever follows the literals. -/
theorem string_append_ne {p q : String} (a b : String)
    (hlen : p.length = q.length) (hne : p ≠ q) : p ++ a ≠ q ++ b := by
  intro h
  apply hne
  have hd : p.data ++ a.data = q.data ++ b.data := by
    rw [← string_data_append, ← string_data_append, h]
  have hl : p.data.length = q.data.length := hlen
  exact string_eq_of_data_eq (List.append_inj_left hd hl)

/-- `hasPre` for a string built as literal-plus-rest. -/
theorem hasPre_string_append {p : String} (lit rest : String)
    (h : hasPre p.data lit.data = true) : hasPre p.data (lit ++ rest).data = true := by
  rw [string_data_append]
  exact hasPre_append rest.data h

/-- Two prefixes of the same character list with equal lengths are equal. -/
theorem hasPre_unique {s : List Char} : ∀ {p q : List Char},
    hasPre p s = true → hasPre q s = true → p.length = q.length → p = q := by
  induction s with
  | nil =>
    intro p q hp hq _
    cases p with
    | nil =>
      cases q with
      | nil => rfl
      | cons y ys => simp [hasPre] at hq
    | cons x xs => simp [hasPre] at hp
  | cons c cs ih =>
    intro p q hp hq hlen
    cases p with
    | nil =>
      cases q with
      | nil => rfl
      | cons y ys => simp at hlen
    | cons x xs =>
      cases q with
      | nil => simp at hlen
      | cons y ys =>
        simp [hasPre] at hp hq
        simp at hlen
        have := ih hp.2 hq.2 hlen
        simp [hp.1, hq.1, this]

/-- Strings starting with distinct equal-length literals are distinct. -/
theorem string_ne_of_distinct_pre {p q s t : String}
    (hs : hasPre p.data s.data = true) (ht : hasPre q.data t.data = true)
    (hlen : p.length = q.length) (hne : p ≠ q) : s ≠ t := by
  intro h
  subst h
  exact hne (string_eq_of_data_eq (hasPre_unique hs ht hlen))

/-! ## Error-message shape lemmas -/

theorem acCountErrorMsg_pre (n : Nat) :
    hasPre "I".data (acCountErrorMsg n).data = true :=
  hasPre_string_append _ _ (by decide)

theorem userStoryErrorMsg_pre (n : Nat) :
    hasPre "U".data (userStoryErrorMsg n).data = true :=
  hasPre_string_append _ _ (by decide)

theorem titleTooShortErrorMsg_pre (n : Nat) :
    hasPre "Title t".data (titleTooShortErrorMsg n).data = true :=
  hasPre_string_append _ _ (by decide)

theorem titleTooLongErrorMsg_pre (n : Nat) :
    hasPre "Title t".data (titleTooLongErrorMsg n).data = true :=
  hasPre_string_append _ _ (by decide)

theorem actionVerbErrorMsg_pre (w : String) :
    hasPre "Title s".data (actionVerbErrorMsg w).data = true :=
  hasPre_string_append _ _ (by decide)

theorem actionVerbErrorMsg_pre1 (w : String) :
    hasPre "T".data (actionVerbErrorMsg w).data = true :=
  hasPre_string_append _ _ (by decide)

theorem acCountErrorMsg_ne_verb (n : Nat) (w : String) :
    acCountErrorMsg n ≠ actionVerbErrorMsg w :=
  string_ne_of_distinct_pre (acCountErrorMsg_pre n) (actionVerbErrorMsg_pre1 w)
    (by decide) (by decide)

theorem userStoryErrorMsg_ne_verb (n : Nat) (w : String) :
    userStoryErrorMsg n ≠ actionVerbErrorMsg w :=
  string_ne_of_distinct_pre (userStoryErrorMsg_pre n) (actionVerbErrorMsg_pre1 w)
    (by decide) (by decide)

theorem titleTooShortErrorMsg_ne_verb (n : Nat) (w : String) :
    titleTooShortErrorMsg n ≠ actionVerbErrorMsg w :=
  string_ne_of_distinct_pre (titleTooShortErrorMsg_pre n) (actionVerbErrorMsg_pre w)
    (by decide) (by decide)

theorem titleTooLongErrorMsg_ne_verb (n : Nat) (w : String) :
    titleTooLongErrorMsg n ≠ actionVerbErrorMsg w :=
  string_ne_of_distinct_pre (titleTooLongErrorMsg_pre n) (actionVerbErrorMsg_pre w)
    (by decide) (by decide)

theorem tooShortErrorMsg_contains (n m : Nat) :
    strContains (tooShortErrorMsg n m) "too short" = true := by
  unfold tooShortErrorMsg
  exact strContains_append_right _ _ _ (by decide)

/-! ## C1: gate decision -/

theorem hardGateNode_gate_decision (thresholds : RubricThresholds) (state : AgentState) :
    (hardGateNode thresholds state).gate_decision =
      some (match state.score_report with
            | none => false
            | some r => hardGateDecide thresholds r state.packet.ticket_type == .PASS) := by
  unfold hardGateNode
  cases state.score_report <;> rfl

/-- C1: The gate decision, given a score report and a ticket category,
is REJECT when the report is null; otherwise REJECT when the report's
blocking-issues list is non-empty regardless of `total_score`; otherwise
REJECT when `total_score` is strictly below the category threshold;
otherwise PASS — in particular a report with no blocking issues and
`total_score` exactly equal to the threshold yields PASS. -/
theorem gate_decision_characterization
    (thresholds : RubricThresholds) (state : AgentState) :
    (hardGateNode thresholds state).gate_decision = some true ↔
      ∃ report, state.score_report = some report ∧
        report.blocking_issues = [] ∧
        thresholds state.packet.ticket_type ≤ report.total_score := by
  rw [hardGateNode_gate_decision]
  cases hrep : state.score_report with
  | none => simp
  | some report =>
    simp only [Option.some.injEq, beq_iff_eq]
    unfold hardGateDecide
    simp only []
    constructor
    · intro h
      by_cases h1 : 0 < report.blocking_issues.length
      · simp [h1] at h
      · by_cases h2 : report.total_score < thresholds state.packet.ticket_type
        · simp [h1, h2] at h
        · exact ⟨report, rfl, List.length_eq_zero.mp (by omega), by omega⟩
    · rintro ⟨r, hr, hblock, hscore⟩
      subst hr
      have h1 : ¬ 0 < report.blocking_issues.length := by simp [hblock]
      have h2 : ¬ report.total_score < thresholds state.packet.ticket_type := by omega
      simp [h1, h2]

/-! ## C2: fallback score penalty -/

/-- Projection used to state score outcomes without binders. -/
def scoreOf (st : AgentState) : Option Int :=
  st.score_report.map TicketScoreReport.total_score

/-- C2: when the scoring stage produces a report, the stored
`total_score` equals `max 0 (pre_penalty_score - 5)` exactly when
`fallback_activated` was set on entry, and the report is stored
unchanged when it was not. -/
theorem scoring_fallback_penalty (agent : ScoringAgentFn) (st : AgentState)
    (report : TicketScoreReport)
    (h : agent (prepareScoringInput st.packet st.structured_prd) = .ok report) :
    scoreOf (scoringNode agent st) =
      some (if st.fallback_activated then max 0 (report.total_score - 5)
            else report.total_score) ∧
    (st.fallback_activated = false → (scoringNode agent st).score_report = some report) := by
  constructor
  · unfold scoringNode scoreOf
    simp [h]
    by_cases hf : st.fallback_activated <;> simp [hf]
  · intro hf
    unfold scoringNode
    simp [h, hf]

/-- Sample state entering scoring with the fallback flag set. -/
def stFallback : AgentState :=
  { createInitialState pkt0 with fallback_activated := true }

theorem scoring_fallback_penalty_witness :
    scoreOf (scoringNode agent70 stFallback) =
      some (if stFallback.fallback_activated then max 0 (report70.total_score - 5)
            else report70.total_score) ∧
    (stFallback.fallback_activated = false →
      (scoringNode agent70 stFallback).score_report = some report70) :=
  scoring_fallback_penalty agent70 stFallback report70 rfl

/-! ## C8: structural validator accumulates independent errors -/

theorem hardCheck_errors_eq (st : AgentState) (prd : PRD_Draft)
    (hprd : st.structured_prd = some prd) :
    (hardCheckStructureNode st).structure_errors =
      (if prd.acceptance_criteria.length < MIN_AC_COUNT then
        [acCountErrorMsg prd.acceptance_criteria.length] else []) ++
      (if (pyStripChars prd.user_story.data).length < MIN_USER_STORY_LENGTH then
        [userStoryErrorMsg (pyStripChars prd.user_story.data).length] else []) ++
      (if (pyStripChars prd.title.data).length < MIN_TITLE_LENGTH then
        [titleTooShortErrorMsg (pyStripChars prd.title.data).length]
      else if (pyStripChars prd.title.data).length > MAX_TITLE_LENGTH then
        [titleTooLongErrorMsg (pyStripChars prd.title.data).length]
      else []) ++
      (if ACTION_VERBS.any (fun v => hasPre v.data (firstTokenLower prd.title).data) then []
       else [actionVerbErrorMsg (firstTokenLower prd.title)]) := by
  unfold hardCheckStructureNode
  simp [hprd]

theorem hardCheck_passed_eq (st : AgentState) (prd : PRD_Draft)
    (hprd : st.structured_prd = some prd) :
    (hardCheckStructureNode st).structure_check_passed =
      some (hardCheckStructureNode st).structure_errors.isEmpty := by
  unfold hardCheckStructureNode
  simp [hprd]

/-- C8: the four checks are evaluated independently; for a draft with
exactly one acceptance criterion and a title whose first token matches
no action verb, both the criteria-count message and the action-verb
message appear (and they are distinct strings), the error list has at
least two entries, and the check fails. -/
theorem structure_check_multi_error (st : AgentState) (prd : PRD_Draft)
    (hprd : st.structured_prd = some prd)
    (hac : prd.acceptance_criteria.length = 1)
    (hverb : ACTION_VERBS.any (fun v => hasPre v.data (firstTokenLower prd.title).data) = false) :
    acCountErrorMsg 1 ∈ (hardCheckStructureNode st).structure_errors ∧
    actionVerbErrorMsg (firstTokenLower prd.title) ∈ (hardCheckStructureNode st).structure_errors ∧
    acCountErrorMsg 1 ≠ actionVerbErrorMsg (firstTokenLower prd.title) ∧
    2 ≤ (hardCheckStructureNode st).structure_errors.length ∧
    (hardCheckStructureNode st).structure_check_passed = some false := by
  have herr := hardCheck_errors_eq st prd hprd
  have hpass := hardCheck_passed_eq st prd hprd
  rw [hac] at herr
  refine ⟨?_, ?_, acCountErrorMsg_ne_verb 1 _, ?_, ?_⟩
  · rw [herr]; simp [MIN_AC_COUNT, hverb]
  · rw [herr]; simp [MIN_AC_COUNT, hverb]
  · rw [herr]; simp [MIN_AC_COUNT, hverb, List.length_append]; omega
  · rw [hpass, herr]; simp [MIN_AC_COUNT, hverb]

/-- Sample state carrying `prdBad`. -/
def stPrdBad : AgentState :=
  { createInitialState pkt0 with structured_prd := some prdBad }

theorem structure_check_multi_error_witness :
    acCountErrorMsg 1 ∈ (hardCheckStructureNode stPrdBad).structure_errors ∧
    actionVerbErrorMsg (firstTokenLower prdBad.title) ∈
      (hardCheckStructureNode stPrdBad).structure_errors ∧
    acCountErrorMsg 1 ≠ actionVerbErrorMsg (firstTokenLower prdBad.title) ∧
    2 ≤ (hardCheckStructureNode stPrdBad).structure_errors.length ∧
    (hardCheckStructureNode stPrdBad).structure_check_passed = some false :=
  structure_check_multi_error stPrdBad prdBad rfl rfl (by decide)

/-! ## C9: scoring input preparation and the attachments field -/

/-- C9 counterexample: with a draft present, the packet handed to the
scoring agent does NOT keep the original attachment-URL list — it is
reset to the schema default (empty). -/
theorem scoring_input_attachments_counterexample :
    (prepareScoringInput pktAttach (some prdOk)).attachments ≠ pktAttach.attachments ∧
    (prepareScoringInput pktAttach (some prdOk)).attachments = [] ∧
    pktAttach.attachments = ["https://example.com/doc.pdf"] :=
  ⟨by decide, rfl, rfl⟩

/-- C9 (amended): with a draft present, the packet handed to the scoring
agent carries the rendered draft as `raw_text` and preserves the source
type, project key, priority and ticket category, while the optional
attachment-URL list is reset to empty (not preserved); without a draft
the original packet is used verbatim; and the packet stored in the
workflow state is never modified by the scoring stage. -/
theorem scoring_input_amended (packet : RequirementPacket) (prd : PRD_Draft)
    (agent : ScoringAgentFn) (st : AgentState) :
    (prepareScoringInput packet (some prd)).raw_text = formatPrdForScoring prd ∧
    (prepareScoringInput packet (some prd)).source_type = packet.source_type ∧
    (prepareScoringInput packet (some prd)).project_key = packet.project_key ∧
    (prepareScoringInput packet (some prd)).priority = packet.priority ∧
    (prepareScoringInput packet (some prd)).ticket_type = packet.ticket_type ∧
    (prepareScoringInput packet (some prd)).attachments = [] ∧
    prepareScoringInput packet none = packet ∧
    (scoringNode agent st).packet = st.packet := by
  refine ⟨rfl, rfl, rfl, rfl, rfl, rfl, rfl, ?_⟩
  unfold scoringNode
  cases hagent : agent (prepareScoringInput st.packet st.structured_prd) with
  | ok r => by_cases hf : st.fallback_activated <;> simp [hagent, hf]
  | error e => simp [hagent]

/-! ## C10: the schema validator makes the verb check unreachable -/

theorem action_verbs_eq : ACTION_VERBS = pydanticActionVerbs := rfl

/-- C10: for any draft whose title passes the schema validator
`title_must_start_with_verb`, the structural validator's action-verb
branch cannot fire: its error message never appears in
`structure_errors`. -/
theorem schema_valid_verb_check_unreachable (st : AgentState) (prd : PRD_Draft)
    (hprd : st.structured_prd = some prd)
    (hschema : titleMustStartWithVerb prd.title = true) :
    actionVerbErrorMsg (firstTokenLower prd.title) ∉
      (hardCheckStructureNode st).structure_errors := by
  have herr := hardCheck_errors_eq st prd hprd
  have hverb : ACTION_VERBS.any (fun v => hasPre v.data (firstTokenLower prd.title).data) = true := by
    rw [action_verbs_eq]
    exact hschema
  rw [herr]
  have na := (acCountErrorMsg_ne_verb prd.acceptance_criteria.length
    (firstTokenLower prd.title)).symm
  have nb := (userStoryErrorMsg_ne_verb (pyStripChars prd.user_story.data).length
    (firstTokenLower prd.title)).symm
  have nc := (titleTooShortErrorMsg_ne_verb (pyStripChars prd.title.data).length
    (firstTokenLower prd.title)).symm
  have nd := (titleTooLongErrorMsg_ne_verb (pyStripChars prd.title.data).length
    (firstTokenLower prd.title)).symm
  by_cases h1 : prd.acceptance_criteria.length < MIN_AC_COUNT <;>
  by_cases h2 : (pyStripChars prd.user_story.data).length < MIN_USER_STORY_LENGTH <;>
  by_cases h3 : (pyStripChars prd.title.data).length < MIN_TITLE_LENGTH <;>
  by_cases h4 : (pyStripChars prd.title.data).length > MAX_TITLE_LENGTH <;>
  simp [h1, h2, h3, h4, hverb, na, nb, nc, nd]

/-- Sample state carrying the schema-valid draft `prdOk`. -/
def stPrdOk : AgentState :=
  { createInitialState pkt0 with structured_prd := some prdOk }

theorem schema_valid_verb_check_unreachable_witness :
    actionVerbErrorMsg (firstTokenLower prdOk.title) ∉
      (hardCheckStructureNode stPrdOk).structure_errors :=
  schema_valid_verb_check_unreachable stPrdOk prdOk rfl (by decide)

/-! ## Frame lemmas for the workflow nodes -/

theorem structuringNode_fallback (r : Except String PRD_Draft) (s : AgentState) :
    (structuringNode r s).fallback_activated = s.fallback_activated := by
  cases r <;> rfl

theorem structuringNode_prd (r : Except String PRD_Draft) (s : AgentState) :
    (structuringNode r s).structured_prd = r.toOption := by
  cases r <;> rfl

theorem hardCheck_fallback (s : AgentState) :
    (hardCheckStructureNode s).fallback_activated = s.fallback_activated := by
  unfold hardCheckStructureNode
  cases s.structured_prd <;> rfl

theorem activateFallback_fallback (s : AgentState) :
    (activateFallback s).fallback_activated = true := rfl

theorem scoringNode_fallback (a : ScoringAgentFn) (s : AgentState) :
    (scoringNode a s).fallback_activated = s.fallback_activated := by
  unfold scoringNode
  cases hagent : a (prepareScoringInput s.packet s.structured_prd) <;> simp [hagent]

theorem hardGateNode_fallback (t : RubricThresholds) (s : AgentState) :
    (hardGateNode t s).fallback_activated = s.fallback_activated := by
  unfold hardGateNode
  cases s.score_report <;> rfl

theorem inputGuardrailNode_ok {cfg : GuardrailConfig} {find : PIIFind} {s s' : AgentState}
    (h : inputGuardrailNode cfg find s = .ok s') :
    s' = { s with current_stage := "guardrail_passed" } := by
  simp only [inputGuardrailNode] at h
  split at h
  · simp only [Except.ok.injEq] at h
    exact h.symm
  · simp at h

/-! ## C3: fallback-activation invariant -/

/-- C3 counterexample: with structuring enabled but the fallback node
disabled, a run whose structuring stage fails ends with a null draft and
`fallback_activated = false` — the claimed "iff" (which covers
fallback-disabled configurations) fails. -/
theorem fallback_invariant_counterexample :
    cfgNoFallback.enable_structuring = true ∧
    runDraftIsNone (runWorkflow cfgNoFallback defaultGuardrailConfig noPIIFind
      (.error "LLM call failed") agentFail thresholds60 pkt0) = some true ∧
    runFallbackFlag (runWorkflow cfgNoFallback defaultGuardrailConfig noPIIFind
      (.error "LLM call failed") agentFail thresholds60 pkt0) = some false :=
  ⟨rfl, rfl, rfl⟩

/-- C3 (amended): for every completed run, `fallback_activated` is true
iff structuring was enabled AND the fallback stage was enabled AND the
structured draft is null after the structuring stage ran. -/
theorem fallback_flag_amended (config : WorkflowConfig) (gcfg : GuardrailConfig)
    (find : PIIFind) (sres : Except String PRD_Draft) (agent : ScoringAgentFn)
    (thresholds : RubricThresholds) (packet : RequirementPacket) (st : AgentState)
    (h : runWorkflow config gcfg find sres agent thresholds packet = .ok st) :
    st.fallback_activated =
      (config.enable_structuring && config.enable_fallback && sres.toOption.isNone) := by
  simp only [runWorkflow] at h
  cases hx : (if config.enable_guardrail then
      inputGuardrailNode gcfg find (createInitialState packet)
    else .ok (createInitialState packet)) with
  | error e => rw [hx] at h; simp at h
  | ok st1 =>
    rw [hx] at h
    simp only [Except.ok.injEq] at h
    have hst1 : st1.fallback_activated = false := by
      by_cases hg : config.enable_guardrail
      · rw [if_pos hg] at hx
        rw [inputGuardrailNode_ok hx]
        rfl
      · rw [if_neg hg] at hx
        simp only [Except.ok.injEq] at hx
        rw [← hx]
        rfl
    subst h
    rw [hardGateNode_fallback, scoringNode_fallback]
    by_cases hs : config.enable_structuring <;>
    by_cases hf : config.enable_fallback <;>
    cases sres <;>
    simp [hs, hf, shouldFallback, structuringNode, hardCheck_fallback,
      activateFallback_fallback, hst1, Except.toOption]

/-- The terminal state of the `cfgFallback` run whose structuring stage
fails and whose scoring agent fails. -/
def stFallbackRun : AgentState :=
  { packet := pkt0
    structured_prd := none
    score_report := none
    gate_decision := some false
    retry_count := 0
    error_logs := ["Structuring: LLM call failed", "Fallback activated: scoring will use raw text",
                   "Scoring failed: boom", "Gate decision: REJECT (no score report)"]
    current_stage := "gate"
    fallback_activated := true
    structure_check_passed := none
    structure_errors := [] }

theorem fallback_flag_amended_witness :
    stFallbackRun.fallback_activated =
      (cfgFallback.enable_structuring && cfgFallback.enable_fallback &&
        (Except.error "LLM call failed" : Except String PRD_Draft).toOption.isNone) :=
  fallback_flag_amended cfgFallback defaultGuardrailConfig noPIIFind
    (.error "LLM call failed") agentFail thresholds60 pkt0 stFallbackRun rfl

/-! ## C7: guardrail rejection-reason precedence -/

theorem detectPIIStep_passed_false (piiCfg : PIIDetectionConfig) (find : PIIFind)
    (text : String) (mode : GuardMode) (r : GuardrailResult) (entry : String × Bool)
    (h : r.passed = false) :
    (detectPIIStep piiCfg find text mode r entry).passed = false := by
  simp only [detectPIIStep]
  split
  · exact h
  · split
    · exact h
    · split
      · exact h
      · split
        · rfl
        · exact h

theorem detectPIIStep_errors_mem (piiCfg : PIIDetectionConfig) (find : PIIFind)
    (text : String) (mode : GuardMode) (r : GuardrailResult) (entry : String × Bool)
    (x : String) (h : x ∈ r.errors) :
    x ∈ (detectPIIStep piiCfg find text mode r entry).errors := by
  simp only [detectPIIStep]
  split
  · exact h
  · split
    · exact h
    · split
      · exact h
      · split
        · exact List.mem_append_left _ h
        · exact h

theorem detectPII_passed_false (piiCfg : PIIDetectionConfig) (find : PIIFind)
    (text : String) (mode : GuardMode) (r : GuardrailResult)
    (h : r.passed = false) :
    (detectPII piiCfg find text mode r).passed = false := by
  unfold detectPII
  induction piiCfg.patterns generalizing r with
  | nil => exact h
  | cons e rest ih =>
    exact ih _ (detectPIIStep_passed_false piiCfg find text mode r e h)

theorem detectPII_errors_mem (piiCfg : PIIDetectionConfig) (find : PIIFind)
    (text : String) (mode : GuardMode) (r : GuardrailResult) (x : String)
    (h : x ∈ r.errors) :
    x ∈ (detectPII piiCfg find text mode r).errors := by
  unfold detectPII
  induction piiCfg.patterns generalizing r with
  | nil => exact h
  | cons e rest ih =>
    exact ih _ (detectPIIStep_errors_mem piiCfg find text mode r e x h)

theorem detectInjection_passed_false (injCfg : PromptInjectionConfig) (text : String)
    (r : GuardrailResult) (h : r.passed = false) :
    (detectInjection injCfg text r).passed = false := by
  unfold detectInjection
  cases ha : injCfg.action <;>
  by_cases hd : (List.filter (fun p => strContains (strLower text) (strLower p))
    injCfg.patterns).isEmpty <;>
  simp [ha, hd, h]

theorem detectInjection_errors_mem (injCfg : PromptInjectionConfig) (text : String)
    (r : GuardrailResult) (x : String) (h : x ∈ r.errors) :
    x ∈ (detectInjection injCfg text r).errors := by
  unfold detectInjection
  cases ha : injCfg.action <;>
  by_cases hd : (List.filter (fun p => strContains (strLower text) (strLower p))
    injCfg.patterns).isEmpty <;>
  simp [ha, hd, h]

theorem validateLength_short (cfg : GuardrailConfig) (text : String) (r : GuardrailResult)
    (hshort : (pyStripChars text.data).length < cfg.min_length) :
    (validateLength cfg text r).passed = false ∧
    tooShortErrorMsg (pyStripChars text.data).length cfg.min_length ∈
      (validateLength cfg text r).errors := by
  simp only [validateLength]
  rw [if_pos hshort]
  split <;> exact ⟨rfl, by simp⟩

/-- Guardrail validation of a too-short input always fails with the
too-short message recorded, whatever the PII and injection stages add. -/
theorem guardrailValidate_short (cfg : GuardrailConfig) (find : PIIFind) (text : String)
    (mode : Option GuardMode)
    (hshort : (pyStripChars text.data).length < cfg.min_length) :
    (guardrailValidate cfg find text mode).passed = false ∧
    tooShortErrorMsg (pyStripChars text.data).length cfg.min_length ∈
      (guardrailValidate cfg find text mode).errors := by
  have hlen := validateLength_short cfg text
    { passed := true, warnings := [], errors := [], sanitized_text := some text
      pii_detected := [], injection_detected := [] } hshort
  simp only [guardrailValidate]
  by_cases hp : cfg.pii_detection.enabled <;>
  by_cases hi : cfg.prompt_injection.enabled <;>
  simp only [hp, hi, if_true, if_false, Bool.false_eq_true, ite_true, ite_false] <;>
  refine ⟨?_, ?_⟩ <;>
  first
    | exact detectInjection_passed_false _ _ _ (detectPII_passed_false _ _ _ _ _ hlen.1)
    | exact detectInjection_passed_false _ _ _ hlen.1
    | exact detectPII_passed_false _ _ _ _ _ hlen.1
    | exact hlen.1
    | exact detectInjection_errors_mem _ _ _ _ (detectPII_errors_mem _ _ _ _ _ _ hlen.2)
    | exact detectInjection_errors_mem _ _ _ _ hlen.2
    | exact detectPII_errors_mem _ _ _ _ _ _ hlen.2
    | exact hlen.2

/-- C7: a failing guardrail aborts the run with a typed rejection whose
reason comes from the closed five-element set, with length checked
first; in particular an input that is both too short and contains a
detectable injection phrase is classified `too_short`. -/
theorem guardrail_too_short_precedence (cfg : GuardrailConfig) (find : PIIFind)
    (st : AgentState)
    (hshort : (pyStripChars st.packet.raw_text.data).length < cfg.min_length)
    (_hinj_enabled : cfg.prompt_injection.enabled = true)
    (_hinj : cfg.prompt_injection.patterns.filter
      (fun p => strContains (strLower st.packet.raw_text) (strLower p)) ≠ []) :
    rejectionReasonOf (inputGuardrailNode cfg find st) = some .too_short := by
  have hval := guardrailValidate_short cfg find st.packet.raw_text none hshort
  simp only [inputGuardrailNode]
  rw [if_neg (by simp [hval.1])]
  simp only [rejectionReasonOf, Option.some.injEq, classifyRejectionReason]
  rw [if_pos]
  exact List.any_eq_true.mpr
    ⟨tooShortErrorMsg (pyStripChars st.packet.raw_text.data).length cfg.min_length,
     hval.2, tooShortErrorMsg_contains _ _⟩

/-- Sample state whose input is too short and contains an injection
phrase. -/
def stShortInjection : AgentState := createInitialState pktShortInjection

theorem guardrail_too_short_precedence_witness :
    rejectionReasonOf
      (inputGuardrailNode defaultGuardrailConfig noPIIFind stShortInjection) =
      some .too_short :=
  guardrail_too_short_precedence defaultGuardrailConfig noPIIFind stShortInjection
    (by decide) rfl (by decide)

/-! ## C4: layering of the multi-model sweep and the retry wrapper -/

/-- C4 counterexample: with the primary model always timing out and the
fallback model succeeding, the system calls the fallback model after a
single failed call to the primary — it does not exhaust the primary's
retry cycle first, so the claimed model-outermost composition does not
describe the code. -/
theorem llm_layering_counterexample :
    (callLLMWithRetry gwFallbackModel ["m1", "m2"] 1).calls = ["m1", "m2"] ∧
    (modelOuterSpec gwFallbackModel ["m1", "m2"] 1).calls = ["m1", "m1", "m2"] ∧
    callLLMWithRetry gwFallbackModel ["m1", "m2"] 1 ≠
      modelOuterSpec gwFallbackModel ["m1", "m2"] 1 :=
  ⟨rfl, rfl, by decide⟩

theorem retryGo_eq_specRetryLoop (gw : Gateway) (models : List String) :
    ∀ fuel idx rc, retryGo gw models fuel idx rc =
      specRetryLoop (invokeSweep gw models) fuel idx rc := by
  intro fuel
  induction fuel with
  | zero => intro idx rc; rfl
  | succ f ih =>
    intro idx rc
    unfold retryGo specRetryLoop
    cases hres : (invokeSweep gw models idx).result with
    | ok v => simp [hres]
    | error e =>
      cases e with
      | timeoutErr m =>
        cases f with
        | zero => simp [hres]
        | succ g => simp [hres, ih]
      | runtimeErr m =>
        by_cases hrl : isRateLimitMsg m
        · cases f with
          | zero => simp [hres, hrl]
          | succ g => simp [hres, hrl, ih]
        · simp [hres, hrl]

theorem retryGo_attempts_le (gw : Gateway) (models : List String) :
    ∀ fuel idx rc, (retryGo gw models fuel idx rc).attempts ≤ fuel := by
  intro fuel
  induction fuel with
  | zero => intro idx rc; simp [retryGo]
  | succ f ih =>
    intro idx rc
    unfold retryGo
    cases hres : (invokeSweep gw models idx).result with
    | ok v => simp [hres]
    | error e =>
      cases e with
      | timeoutErr m =>
        cases f with
        | zero => simp [hres]
        | succ g => simp [hres]; exact ih _ _
      | runtimeErr m =>
        by_cases hrl : isRateLimitMsg m
        · cases f with
          | zero => simp [hres, hrl]
          | succ g => simp [hres, hrl]; exact ih _ _
        · simp [hres, hrl]

theorem retryGo_attempts_pos (gw : Gateway) (models : List String)
    (fuel idx rc : Nat) : 1 ≤ (retryGo gw models (fuel + 1) idx rc).attempts := by
  unfold retryGo
  cases hres : (invokeSweep gw models idx).result with
  | ok v => simp [hres]
  | error e =>
    cases e with
    | timeoutErr m =>
      cases fuel with
      | zero => simp [hres]
      | succ g => simp [hres]
    | runtimeErr m =>
      by_cases hrl : isRateLimitMsg m
      · cases fuel with
        | zero => simp [hres, hrl]
        | succ g => simp [hres, hrl]
      · simp [hres, hrl]

/-- C4 (amended): the two mechanisms are independent, composable layers,
but with the RETRY wrapper outermost: the wrapped call is exactly the
bounded-retry combinator applied to one full model sweep per attempt
(`stop_after_attempt(max_retries + 1)`), making between 1 and
`max_retries + 1` sweep attempts, returning on the first success inside
a sweep and classifying the exhaustion error from the sweep's last
encountered error. -/
theorem llm_layering_amended (gw : Gateway) (models : List String) (N : Nat) :
    callLLMWithRetry gw models N = specRetryLoop (invokeSweep gw models) (N + 1) 0 0 ∧
    1 ≤ (callLLMWithRetry gw models N).attempts ∧
    (callLLMWithRetry gw models N).attempts ≤ N + 1 :=
  ⟨retryGo_eq_specRetryLoop gw models (N + 1) 0 0,
   retryGo_attempts_pos gw models N 0 0,
   retryGo_attempts_le gw models (N + 1) 0 0⟩

/-! ## C5: retry wrapper attempt counts -/

/-- C5: with a gateway that times out exactly twice then succeeds and a
retry budget of at least 2, the wrapper returns the success value after
exactly 3 attempts; with a gateway that always times out and budget 2,
it raises the typed timeout-exhausted error carrying attempt count 3. -/
theorem retry_attempt_counts :
    (∀ (gw : Gateway) (m t0 t1 v : String) (N : Nat),
        gw 0 m = .timeout t0 → gw 1 m = .timeout t1 → gw 2 m = .success v →
        2 ≤ N →
        callLLMWithRetry gw [m] N =
          { calls := [m, m, m], attempts := 3, result := .ok v }) ∧
    (∀ (gw : Gateway) (m : String) (msgs : Nat → String),
        (∀ i, gw i m = .timeout (msgs i)) →
        callLLMWithRetry gw [m] 2 =
          { calls := [m, m, m], attempts := 3, result := .error (.llmTimeout 3) }) := by
  constructor
  · intro gw m t0 t1 v N h0 h1 h2 hN
    obtain ⟨k, rfl⟩ : ∃ k, N = k + 2 := ⟨N - 2, by omega⟩
    have e3 : retryGo gw [m] (k + 1) 2 2 =
        { calls := [m], attempts := 1, result := .ok v } := by
      cases k with
      | zero => simp [retryGo, invokeSweep, invokeSweepGo, h2]
      | succ k2 => simp [retryGo, invokeSweep, invokeSweepGo, h2]
    show retryGo gw [m] ((k + 2) + 1) 0 0 = _
    simp [retryGo, invokeSweep, invokeSweepGo, h0, h1, e3]
  · intro gw m msgs h
    show retryGo gw [m] 3 0 0 = _
    simp [retryGo, invokeSweep, invokeSweepGo, h]

theorem retry_attempt_counts_witness :
    (gwTwoTimeouts 0 "gpt" = .timeout "t" ∧ gwTwoTimeouts 1 "gpt" = .timeout "t" ∧
      gwTwoTimeouts 2 "gpt" = .success "ok" ∧ 2 ≤ 2 ∧
      callLLMWithRetry gwTwoTimeouts ["gpt"] 2 =
        { calls := ["gpt", "gpt", "gpt"], attempts := 3, result := .ok "ok" }) ∧
    callLLMWithRetry gwAlwaysTimeout ["gpt"] 2 =
      { calls := ["gpt", "gpt", "gpt"], attempts := 3, result := .error (.llmTimeout 3) } :=
  ⟨⟨rfl, rfl, rfl, le_refl 2,
    retry_attempt_counts.1 gwTwoTimeouts "gpt" "t" "t" "ok" 2 rfl rfl rfl (le_refl 2)⟩,
   retry_attempt_counts.2 gwAlwaysTimeout "gpt" (fun _ => "t") (fun _ => rfl)⟩

/-! ## C6: non-retryable errors propagate immediately -/

/-- C6: when the underlying sweep raises a runtime error whose message
lacks the rate-limit keywords, the wrapper propagates it after exactly 1
attempt, consuming no retries, for every retry budget. -/
theorem retry_nonretryable_immediate (gw : Gateway) (models : List String) (N : Nat)
    (m : String)
    (h : (invokeSweep gw models 0).result = .error (.runtimeErr m))
    (hkw : isRateLimitMsg m = false) :
    callLLMWithRetry gw models N =
      { calls := (invokeSweep gw models 0).calls, attempts := 1,
        result := .error (.runtimeError m) } := by
  show retryGo gw models (N + 1) 0 0 = _
  unfold retryGo
  simp [h, hkw]

theorem retry_nonretryable_immediate_witness :
    callLLMWithRetry gwApiKeyError ["m1"] 3 =
      { calls := ["m1"], attempts := 1,
        result := .error (.runtimeError "Invalid API key") } :=
  retry_nonretryable_immediate gwApiKeyError ["m1"] 3 "Invalid API key" rfl (by decide)

end ReqGate

